import Mathlib

/-
Shallow embedding of the account data model of foodOnline
(src/accounts/models.py): the custom UserManager (create_user,
create_superuser), the User entity with its permission accessors
(has_perm, has_module_perms), and the UserProfile entity with its
string representation. Persistence is modelled as an explicit write
log: a list of persisted User records, to which every save appends
the saved record's declared fields.
-/

namespace FoodOnline

/-- Runtime errors raised by the modelled code: `valueError` for the two
validation failures in `create_user`, `attributeError` for the
null-reference-style failure of `UserProfile.__str__` when no account is
attached. -/
inductive PyError where
  | valueError (msg : String)
  | attributeError (msg : String)
deriving DecidableEq

/-- The stored password of an account. `hashed p` stands for the one-way
salted hash of the plaintext `p` produced by the hashing collaborator
(`set_password`); `unusable` is the state set when no password is given. -/
inductive StoredPassword where
  | hashed (plaintext : String)
  | unusable
deriving DecidableEq

/-- Modelled from the spec: the hashing collaborator behind
`user.set_password(password)`. A present password is stored as its
irreversible hash (represented symbolically); an absent password leaves the
account with no usable password. -/
def set_password : Option String → StoredPassword
  | some p => .hashed p
  | none => .unusable

/-- Splits a character list at its LAST occurrence of the at sign,
returning the local part and the domain part (without the sign), or `none`
when no at sign occurs. Helper for `normalize_email`. -/
def rsplit_at_sign : List Char → Option (List Char × List Char)
  | [] => none
  | c :: cs =>
    match rsplit_at_sign cs with
    | some (n, d) => some (c :: n, d)
    | none => if c = '@' then some ([], cs) else none

/-- Modelled from the spec: the email-normalization collaborator
(the framework's `normalize_email`, which is not part of this repository).
It lowercases the domain portion of an email address — the part after the
last at sign — and leaves the local part untouched; an address without an
at sign is returned unchanged. -/
def normalize_email (email : String) : String :=
  match rsplit_at_sign email.data with
  | none => email
  | some (n, d) => String.mk (n ++ '@' :: d.map Char.toLower)

/-- The declared fields of the `User` model (src/accounts/models.py,
class User) that the claims are about. Timestamps are generated by an
external collaborator and are out of the modelled state; `phone_number`
and `role` are optional with their declared defaults. All four status
flags default to false exactly as in the source (`default=False`), the
fourth one spelled `is_Superadmin` with a capital S as in the source. -/
structure User where
  first_name : String
  last_name : String
  username : String
  email : String
  phone_number : String := ""
  role : Option Nat := none
  password : StoredPassword := .unusable
  is_admin : Bool := false
  is_staff : Bool := false
  is_active : Bool := false
  is_Superadmin : Bool := false
deriving DecidableEq

/-- The in-memory Python object for a user: the declared model fields plus
one dynamic-attribute slot. In `create_superuser` the source assigns
`user.is_superadmin = True` (lowercase s): `is_superadmin` is not a
declared field of the model (the field is `is_Superadmin`), so in Python
this assignment creates a plain instance attribute that `save` never
persists. That dynamic attribute is modelled here as
`attr_is_superadmin`, absent (`none`) until assigned. -/
structure UserObj extends User where
  attr_is_superadmin : Option Bool := none
deriving DecidableEq

/-- `user.save(using=self._db)`: appends the declared fields of the saved
object to the write log. The dynamic attribute slot is not persisted,
exactly as an undeclared instance attribute is not written by the storage
collaborator. -/
def save (db : List User) (u : UserObj) : List User := db ++ [u.toUser]

/-- `UserManager.create_user(first_name, last_name, username, email,
password=None)`: raises the missing-email error when `email` is empty,
then the missing-username error when `username` is empty (with the exact
messages of the source), otherwise builds the object with the normalized
email, the verbatim username and names, hashes the password, saves once
and returns the object. Returns the result together with the write log. -/
def create_user (db : List User) (first_name last_name username email : String)
    (password : Option String) : Except PyError UserObj × List User :=
  if email = "" then
    (.error (.valueError "User must have an email address"), db)
  else if username = "" then
    (.error (.valueError "User must have an username"), db)
  else
    let user : UserObj :=
      { email := normalize_email email
        username := username
        first_name := first_name
        last_name := last_name
        password := set_password password }
    (.ok user, save db user)

/-- The four assignment lines of `create_superuser`: `is_admin`,
`is_active` and `is_staff` are declared fields and are set to true; the
fourth line assigns `user.is_superadmin = True`, which is NOT a declared
field (case mismatch with `is_Superadmin`), so it only fills the dynamic
attribute slot and leaves the declared `is_Superadmin` field unchanged. -/
def promote (user : UserObj) : UserObj :=
  { user with
    is_admin := true
    is_active := true
    is_staff := true
    attr_is_superadmin := some true }

/-- `UserManager.create_superuser`: delegates to `create_user` with the
same arguments (email normalized redundantly a second time inside
`create_user`), then performs the four assignments of `promote` and saves
a second time. -/
def create_superuser (db : List User) (first_name last_name username email : String)
    (password : Option String) : Except PyError UserObj × List User :=
  match create_user db first_name last_name username (normalize_email email) password with
  | (.error e, db1) => (.error e, db1)
  | (.ok user, db1) => (.ok (promote user), save db1 (promote user))

/-- `User.has_perm(self, perm, obj=None)`: returns `self.is_admin`,
ignoring both arguments. -/
def has_perm (self : User) (perm : String) (obj : Option String) : Bool :=
  self.is_admin

/-- `User.has_module_perms(self, app_label)`: returns true
unconditionally. -/
def has_module_perms (self : User) (app_label : String) : Bool :=
  true

/-- `User.__str__`: the account's email. -/
def User.str (self : User) : String := self.email

/-- The `UserProfile` model: a nullable one-to-one reference to a `User`
plus optional extended attributes, all blank/null by default as declared
in the source. Timestamps are external and out of the modelled state. -/
structure UserProfile where
  user : Option User
  profile_picture : Option String := none
  cover_photos : Option String := none
  address_line_1 : Option String := none
  address_line_2 : Option String := none
  country : Option String := none
  city : Option String := none
  pin_code : Option String := none
  latitude : Option String := none
  longitude : Option String := none
deriving DecidableEq

/-- `UserProfile.__str__`: `return self.user.email`. When no account is
attached (`user` is null) the attribute access on the null reference
raises; otherwise it returns the owning account's email. -/
def UserProfile.str (self : UserProfile) : Except PyError String :=
  match self.user with
  | none => .error (.attributeError "NoneType object has no attribute email")
  | some u => .ok u.email

/-- A sample account object: exactly what `create_user` builds for
first_name "Jane", last_name "Doe", username "jane@x.com",
email "jane@x.com", password "secret123". -/
def janeObj : UserObj :=
  { email := "jane@x.com"
    username := "jane@x.com"
    first_name := "Jane"
    last_name := "Doe"
    password := .hashed "secret123" }

/-- Characterization of the successful path of `create_user`: with a
nonempty email and username it returns the freshly built object and
appends exactly that object's fields to the write log. -/
lemma create_user_ok (db : List User) (fn ln un em : String) (pw : Option String)
    (h1 : em ≠ "") (h2 : un ≠ "") :
    create_user db fn ln un em pw =
      (.ok { email := normalize_email em, username := un, first_name := fn,
             last_name := ln, password := set_password pw },
       db ++ [({ email := normalize_email em, username := un, first_name := fn,
                 last_name := ln, password := set_password pw : UserObj }).toUser]) := by
  simp [create_user, save, h1, h2]

/-- A successful `create_user` run can only happen on a nonempty email and
a nonempty username. -/
lemma create_user_ok_ne (db : List User) (fn ln un em : String) (pw : Option String)
    (u : UserObj) (db2 : List User)
    (h : create_user db fn ln un em pw = (.ok u, db2)) :
    em ≠ "" ∧ un ≠ "" := by
  refine ⟨fun he => ?_, fun hu => ?_⟩
  · subst he
    simp [create_user] at h
  · subst hu
    by_cases he : em = ""
    · subst he
      simp [create_user] at h
    · simp [create_user, he] at h

/-- C1: the claim says every valid `create_superuser` call yields an
account with all four privilege flags true. On the concrete valid input
("Jane", "Doe", "jane@x.com", "jane@x.com", "secret123") the code sets
`is_admin`, `is_staff` and `is_active` true, but the assignment
`user.is_superadmin = True` targets a name that is not the declared field
`is_Superadmin`: the returned object carries the value only in its dynamic
attribute slot while its declared `is_Superadmin` field is false, and both
persisted records have `is_Superadmin = false`. -/
theorem create_superuser_superadmin_not_persisted :
    ((create_superuser [] "Jane" "Doe" "jane@x.com" "jane@x.com" (some "secret123")).1.map
        (fun u => u.is_admin && u.is_staff && u.is_active) = .ok true) ∧
    ((create_superuser [] "Jane" "Doe" "jane@x.com" "jane@x.com" (some "secret123")).1.map
        (fun u => u.is_Superadmin) = .ok false) ∧
    ((create_superuser [] "Jane" "Doe" "jane@x.com" "jane@x.com" (some "secret123")).1.map
        (fun u => u.attr_is_superadmin) = .ok (some true)) ∧
    ((create_superuser [] "Jane" "Doe" "jane@x.com" "jane@x.com" (some "secret123")).2.map
        User.is_Superadmin = [false, false]) := by
  refine ⟨?_, ?_, ?_, ?_⟩ <;> rfl

/-- C2: for every input whose email is the empty string, `create_user`
fails with the missing-email ValueError of the source and returns the
write log unchanged: no storage write occurs. -/
theorem create_user_empty_email_error (db : List User) (fn ln un : String)
    (pw : Option String) :
    create_user db fn ln un "" pw =
      (.error (.valueError "User must have an email address"), db) := rfl

/-- C3: for every input whose username is the empty string while the email
is nonempty, `create_user` fails with the missing-username ValueError of
the source and returns the write log unchanged: no storage write occurs. -/
theorem create_user_empty_username_error (db : List User) (fn ln em : String)
    (pw : Option String) (h : em ≠ "") :
    create_user db fn ln "" em pw =
      (.error (.valueError "User must have an username"), db) := by
  simp [create_user, h]

theorem create_user_empty_username_error_witness :
    create_user [] "Jane" "Doe" "" "jane@x.com" (some "secret123") =
      (.error (.valueError "User must have an username"), []) :=
  create_user_empty_username_error [] "Jane" "Doe" "jane@x.com" (some "secret123")
    (by decide)

/-- C4: `has_perm` returns true exactly when `is_admin` is true, and its
result does not depend on the permission, the target, or the other three
status flags. -/
theorem has_perm_iff_is_admin (u : User) (perm perm2 : String) (obj obj2 : Option String)
    (b1 b2 b3 : Bool) :
    (has_perm u perm obj = true ↔ u.is_admin = true) ∧
    has_perm u perm obj =
      has_perm { u with is_staff := b1, is_active := b2, is_Superadmin := b3 }
        perm2 obj2 :=
  ⟨Iff.rfl, rfl⟩

/-- C5: `has_module_perms` returns true for every account state and every
app label. -/
theorem has_module_perms_always_true (u : User) (app_label : String) :
    has_module_perms u app_label = true := rfl

/-- C6: every account returned by a successful `create_user` call has all
four status flags at their default false values — in particular it is
inactive and `has_perm` denies it everything. -/
theorem create_user_default_flags (db : List User) (fn ln un em : String)
    (pw : Option String) (u : UserObj) (db2 : List User)
    (h : create_user db fn ln un em pw = (.ok u, db2)) :
    u.is_admin = false ∧ u.is_staff = false ∧ u.is_active = false ∧
      u.is_Superadmin = false ∧ (∀ perm obj, has_perm u.toUser perm obj = false) := by
  obtain ⟨h1, h2⟩ := create_user_ok_ne db fn ln un em pw u db2 h
  rw [create_user_ok db fn ln un em pw h1 h2] at h
  simp only [Prod.mk.injEq, Except.ok.injEq] at h
  obtain ⟨h3, -⟩ := h
  subst h3
  exact ⟨rfl, rfl, rfl, rfl, fun _ _ => rfl⟩

theorem create_user_default_flags_witness :
    janeObj.is_admin = false ∧ janeObj.is_staff = false ∧ janeObj.is_active = false ∧
      janeObj.is_Superadmin = false ∧
      (∀ perm obj, has_perm janeObj.toUser perm obj = false) :=
  create_user_default_flags [] "Jane" "Doe" "jane@x.com" "jane@x.com"
    (some "secret123") janeObj [janeObj.toUser] rfl

/-- C7: every successful `create_superuser` run grows the write log by
exactly two records: the save inside the delegated `create_user` call and
the save after the privilege-flag assignments. -/
theorem create_superuser_two_writes (db : List User) (fn ln un em : String)
    (pw : Option String) (u : UserObj) (db2 : List User)
    (h : create_superuser db fn ln un em pw = (.ok u, db2)) :
    db2.length = db.length + 2 := by
  unfold create_superuser at h
  rcases hcu : create_user db fn ln un (normalize_email em) pw with ⟨res, db1⟩
  rw [hcu] at h
  cases res with
  | error e => simp at h
  | ok u0 =>
    simp only [Prod.mk.injEq, Except.ok.injEq] at h
    obtain ⟨-, hdb⟩ := h
    obtain ⟨hne, hnu⟩ := create_user_ok_ne db fn ln un (normalize_email em) pw u0 db1 hcu
    rw [create_user_ok db fn ln un (normalize_email em) pw hne hnu] at hcu
    simp only [Prod.mk.injEq, Except.ok.injEq] at hcu
    obtain ⟨-, hdb1⟩ := hcu
    subst hdb
    subst hdb1
    simp [save]

theorem create_superuser_two_writes_witness :
    ([janeObj.toUser, (promote janeObj).toUser] : List User).length =
      ([] : List User).length + 2 :=
  create_superuser_two_writes [] "Jane" "Doe" "jane@x.com" "jane@x.com"
    (some "secret123") (promote janeObj)
    [janeObj.toUser, (promote janeObj).toUser] rfl

/-- C8: the string representation of a `UserProfile` fails with the
null-reference-style attribute error whenever no account is attached, and
returns the attached account's email otherwise. -/
theorem userprofile_str_null_or_email (p : UserProfile) :
    (p.user = none →
      p.str = .error (.attributeError "NoneType object has no attribute email")) ∧
    (∀ u : User, p.user = some u → p.str = .ok u.email) := by
  refine ⟨fun h => ?_, fun u h => ?_⟩
  · simp [UserProfile.str, h]
  · simp [UserProfile.str, h]

theorem userprofile_str_null_or_email_witness :
    (UserProfile.str { user := none } =
      .error (.attributeError "NoneType object has no attribute email")) ∧
    (UserProfile.str { user := some janeObj.toUser } = .ok "jane@x.com") :=
  ⟨(userprofile_str_null_or_email { user := none }).1 rfl,
   (userprofile_str_null_or_email { user := some janeObj.toUser }).2
     janeObj.toUser rfl⟩

/-- C9: when both email and username are empty, the email check comes
first: `create_user` fails with the missing-email ValueError, not the
missing-username one, and the write log is unchanged. -/
theorem create_user_both_empty_email_first (db : List User) (fn ln : String)
    (pw : Option String) :
    create_user db fn ln "" "" pw =
      (.error (.valueError "User must have an email address"), db) := rfl

/-- C10: every account returned by a successful `create_user` call stores
the normalized (domain-lowercased) input email but the input username
character for character, and the persisted record is exactly that
account's fields appended to the write log. -/
theorem create_user_normalizes_email_only (db : List User) (fn ln un em : String)
    (pw : Option String) (u : UserObj) (db2 : List User)
    (h : create_user db fn ln un em pw = (.ok u, db2)) :
    u.email = normalize_email em ∧ u.username = un ∧ db2 = db ++ [u.toUser] := by
  obtain ⟨h1, h2⟩ := create_user_ok_ne db fn ln un em pw u db2 h
  rw [create_user_ok db fn ln un em pw h1 h2] at h
  simp only [Prod.mk.injEq, Except.ok.injEq] at h
  obtain ⟨h3, h4⟩ := h
  subst h3
  subst h4
  exact ⟨rfl, rfl, rfl⟩

/-- The account object built from the mixed-case input of the C10 witness:
the domain of the email is lowercased, the local part and the username are
kept verbatim. -/
def mixedObj : UserObj :=
  { email := "Jane@x.com"
    username := "USER@X.COM"
    first_name := "Jane"
    last_name := "Doe"
    password := .hashed "secret123" }

theorem create_user_normalizes_email_only_witness :
    mixedObj.email = normalize_email "Jane@X.COM" ∧
      mixedObj.username = "USER@X.COM" ∧
      [mixedObj.toUser] = ([] : List User) ++ [mixedObj.toUser] :=
  create_user_normalizes_email_only [] "Jane" "Doe" "USER@X.COM" "Jane@X.COM"
    (some "secret123") mixedObj [mixedObj.toUser] rfl

end FoodOnline
